import Mathlib

/-!
Verification development for the Microservices-Broker repository.

The definitions below are a shallow embedding of the Go sources:
`cmd/lib/server.go` (broker server: Send, Receive, GetMessages, Cleanup,
storeMessage), the authentication layer (AuthManager: GenerateJWT,
ValidateJWT, ValidateAPIKey, UnaryInterceptor, StreamInterceptor,
GetServiceNameFromContext), and the protobuf data model from `base.proto`
(Message, Status, enums Type/Event/Error, plus the `queue` field used by
`server.go` and the client library).

Machine-level conventions of the embedding:
* byte slices are `List Nat`; the Go check `msg.Data == nil` is modelled as
  `msg.data = []`, since a proto3 `bytes` field that is absent or empty on
  the wire unmarshals to a nil slice on the server;
* timestamps are `Nat` (seconds); `timestamppb.Now()` becomes an explicit
  `now : Nat` parameter;
* the `sync.Map` of clients and the bitcask store are association lists;
* fallible external effects (`TryLock`, `stream.Send`, `db.Put`) become
  explicit parameters describing their outcome at the call site.
-/

namespace Broker

/-- `Type` enum of base.proto. -/
inductive MsgType where
  | MP4 | MP3 | JPG | PNG | JSON | XML | HTML | TEXT | OTHER
deriving DecidableEq, Repr

/-- `Event` enum of base.proto. -/
inductive Event where
  | STREAM | MESSAGE | ERROR
deriving DecidableEq, Repr

/-- `Error` enum of base.proto. -/
inductive Err where
  | NONE | UNKNOWN | INVALID_REQUEST | SERVER_ERROR
deriving DecidableEq, Repr

/-- `Message` of base.proto: data, type, seq, from, to, event, done, plus the
`queue` flag used by `Send` and the Go client (`from` is a Lean keyword, so the
field is called `from_`). -/
structure Message where
  data : List Nat
  type : MsgType
  seq : Nat
  from_ : String
  to_ : String
  event : Event
  done : Bool
  queue : Bool
deriving DecidableEq, Repr

/-- `Status` of base.proto. -/
structure Status where
  message : String
  success : Bool
  error : Err
deriving DecidableEq, Repr

/-- Association-list load, the embedding of `sync.Map.Load`. -/
def loadAssoc {α : Type} (l : List (String × α)) (k : String) : Option α :=
  match l with
  | [] => Option.none
  | (k', v) :: rest => if k' = k then some v else loadAssoc rest k

/-- Association-list store, the embedding of `sync.Map.Store` (replaces the
entry for the key when present, appends otherwise). -/
def storeAssoc {α : Type} (l : List (String × α)) (k : String) (v : α) :
    List (String × α) :=
  match l with
  | [] => [(k, v)]
  | (k', v') :: rest =>
    if k' = k then (k, v) :: rest else (k', v') :: storeAssoc rest k v

/-- Association-list delete, the embedding of `sync.Map.Delete`. -/
def deleteAssoc {α : Type} (l : List (String × α)) (k : String) :
    List (String × α) :=
  match l with
  | [] => []
  | (k', v') :: rest =>
    if k' = k then deleteAssoc rest k else (k', v') :: deleteAssoc rest k

/-- The Session Registry: service name to active receive-stream handle
(stream handles are identifiers). Embeds `Server.clients`. -/
abbrev Registry := List (String × Nat)

/-- The Durable Spool: key to stored message. Embeds the bitcask store. -/
abbrev Spool := List (String × Message)

/-- Key written by `storeMessage` in server.go:
`bitcask.Key(serviceName + "_" + Utils.uid(16))`. The separator character in
the source is the underscore. -/
def storeKey (serviceName : String) (id : String) : String :=
  serviceName ++ "_" ++ id

/-- The message record `storeMessage` actually persists (`_msg` in server.go):
Data, Type, From, To are copied from the inbound message; Event is forced to
MESSAGE and Seq to the current time; Done and Queue are not copied, so they
take their zero values. -/
def storedMessage (now : Nat) (msg : Message) : Message :=
  { data := msg.data, type := msg.type, seq := now, from_ := msg.from_,
    to_ := msg.to_, event := Event.MESSAGE, done := false, queue := false }

/-- Result of a `Send` call: the reply Status, the spool after the call, and
the list of (stream handle, message) pairs pushed to live streams. -/
structure SendResult where
  status : Status
  db : Spool
  delivered : List (Nat × Message)
deriving DecidableEq, Repr

/-- `Server.Send` from server.go. Parameters model the outcome of external
effects at this call: `lockAcquired` is the result of `mu.TryLock()`,
`streamSendErr` the error of `clientStream.Send(msg)` if the live branch runs,
`putErr` the error of `db.Put` inside `storeMessage`, `freshId` the value of
`Utils.uid(16)`. Checks appear in source order: field validation, try-lock,
registry lookup, queue flag. -/
def send (clients : Registry) (db : Spool) (now : Nat) (freshId : String)
    (lockAcquired : Bool) (streamSendErr : Option String)
    (putErr : Option String) (msg : Message) : SendResult :=
  if msg.data = [] ∨ msg.from_ = "" ∨ msg.to_ = "" then
    ⟨⟨"Invalid message", false, Err.INVALID_REQUEST⟩, db, []⟩
  else if lockAcquired = false then
    ⟨⟨"Server busy", false, Err.SERVER_ERROR⟩, db, []⟩
  else
    match loadAssoc clients msg.to_ with
    | some h =>
      match streamSendErr with
      | Option.none => ⟨⟨"Message sent", true, Err.NONE⟩, db, [(h, msg)]⟩
      | some e => ⟨⟨e, false, Err.SERVER_ERROR⟩, db, []⟩
    | Option.none =>
      if msg.queue then
        match putErr with
        | Option.none =>
          ⟨⟨"Message queued", true, Err.NONE⟩,
            db ++ [(storeKey msg.to_ freshId, storedMessage now msg)], []⟩
        | some e => ⟨⟨e, false, Err.SERVER_ERROR⟩, db, []⟩
      else ⟨⟨"Recipient not found", false, Err.NONE⟩, db, []⟩

/-- The registry update performed at the top of `Server.Receive`
(server.go lines 113-117): the stream is stored only when an entry for the
service already exists; otherwise the registry is left unchanged. -/
def receiveRegister (clients : Registry) (from_ : String) (stream : Nat) :
    Registry :=
  match loadAssoc clients from_ with
  | some _ => storeAssoc clients from_ stream
  | Option.none => clients

/-- The registry effect of one `Server.GetMessages` call (server.go lines
143-181): when the spool scan succeeds the deferred `clients.Delete` runs at
return; when the scan errors the function returns before the defer is
registered, leaving the registry unchanged. -/
def getMessagesRegistryAfter (clients : Registry) (serviceName : String)
    (scanOk : Bool) : Registry :=
  if scanOk then deleteAssoc clients serviceName else clients

/-- The registry effect of the teardown branch of `Server.Receive`
(server.go lines 121-125): on stream-context cancellation the client is
deleted from the registry. -/
def receiveTeardown (clients : Registry) (from_ : String) : Registry :=
  deleteAssoc clients from_

/-- One registry transition of the server: a `Receive` entry, a drain pass of
`GetMessages`, or a cancellation teardown. These are the only places in the
source that touch `Server.clients`. -/
inductive RegStep : Registry → Registry → Prop where
  | register (r : Registry) (from_ : String) (stream : Nat) :
      RegStep r (receiveRegister r from_ stream)
  | drainPass (r : Registry) (serviceName : String) (scanOk : Bool) :
      RegStep r (getMessagesRegistryAfter r serviceName scanOk)
  | teardown (r : Registry) (from_ : String) :
      RegStep r (receiveTeardown r from_)

/-- Registries reachable from the initial empty `sync.Map` of a fresh server
(`NewServer` sets `clients: sync.Map{}`). -/
inductive RegReachable : Registry → Prop where
  | init : RegReachable []
  | step {r r' : Registry} : RegReachable r → RegStep r r' → RegReachable r'

/-- `Server.Cleanup` from server.go: try-lock first, then the empty-name
check, then delete every spool entry whose key has prefix
`serviceName + "_"`, replying with the deleted count. -/
def cleanup (db : Spool) (lockAcquired : Bool) (from_ : String) :
    Status × Spool :=
  if lockAcquired = false then
    (⟨"Server busy", false, Err.SERVER_ERROR⟩, db)
  else if from_ = "" then
    (⟨"missing service name", false, Err.INVALID_REQUEST⟩, db)
  else
    let matching := db.filter (fun kv => (from_ ++ "_").isPrefixOf kv.1)
    (⟨"Cleanup completed (" ++ toString matching.length ++ ")", true,
        Err.NONE⟩,
      db.filter (fun kv => !(from_ ++ "_").isPrefixOf kv.1))

/-! ### Authentication layer (AuthManager) -/

/-- `AuthMethod` from the auth source (JWT is iota 0, the default). -/
inductive AuthMethod where
  | jwt | apiKey
deriving DecidableEq, Repr

/-- `AuthConfig` from the auth source. `tokenExpiry` is in seconds. -/
structure AuthConfig where
  jwtSecret : String
  apiKeys : List (String × String)
  tokenExpiry : Nat
  enableAuth : Bool
  authMethod : AuthMethod
deriving DecidableEq, Repr

/-- `NewAuthManager`: an empty secret is replaced by a freshly generated
32-byte key (passed in as `generatedSecret`), and a zero `TokenExpiry`
defaults to 24 hours (86400 seconds). -/
def newAuthManager (cfg : AuthConfig) (generatedSecret : String) : AuthConfig :=
  { cfg with
    jwtSecret := if cfg.jwtSecret = "" then generatedSecret else cfg.jwtSecret
    tokenExpiry := if cfg.tokenExpiry = 0 then 86400 else cfg.tokenExpiry }

/-- JWT signing algorithms relevant to the validator: the HMAC family
accepted by the keyfunc, and non-HMAC algorithms it rejects (including
`none`). -/
inductive Alg where
  | HS256 | HS384 | HS512 | RS256 | algNone
deriving DecidableEq, Repr

/-- Whether the algorithm is `*jwt.SigningMethodHMAC` (the keyfunc's type
check in `ValidateJWT`). -/
def Alg.isHMAC : Alg → Bool
  | .HS256 => true
  | .HS384 => true
  | .HS512 => true
  | _ => false

/-- A parsed JWT as the golang-jwt library sees it: the `JWTClaims` fields
(`service_name` plus registered claims) together with the algorithm of the
header and the key its signature was produced with (`sigKey`; the signature
verifies exactly when `sigKey` equals the configured secret — tampering with
claims breaks this equality). -/
structure Token where
  serviceName : String
  expiresAt : Nat
  issuedAt : Nat
  notBefore : Nat
  issuer : String
  subject : String
  alg : Alg
  sigKey : String
deriving DecidableEq, Repr

/-- `GenerateJWT`: claims carry the service name, `ExpiresAt = now +
TokenExpiry`, `IssuedAt = NotBefore = now`, issuer `microservices-broker`,
subject the service name; the token is signed HS256 with the configured
secret. -/
def generateJWT (cfg : AuthConfig) (now : Nat) (serviceName : String) :
    Token :=
  { serviceName := serviceName, expiresAt := now + cfg.tokenExpiry,
    issuedAt := now, notBefore := now, issuer := "microservices-broker",
    subject := serviceName, alg := Alg.HS256, sigKey := cfg.jwtSecret }

/-- `ValidateJWT`: `jwt.ParseWithClaims` with a keyfunc that rejects
non-HMAC signing methods; the golang-jwt v5 parser then verifies the HMAC
signature against the secret and, by default, validates the registered `exp`
and `nbf` claims against the current time (a token whose `exp` has passed is
rejected as expired). On success the `service_name` claim is returned. -/
def validateJWT (cfg : AuthConfig) (now : Nat) (tok : Token) :
    Except String String :=
  if tok.alg.isHMAC = false then
    Except.error "unexpected signing method"
  else if tok.sigKey ≠ cfg.jwtSecret then
    Except.error "signature is invalid"
  else if tok.expiresAt ≤ now then
    Except.error "token is expired"
  else if now < tok.notBefore then
    Except.error "token is not valid yet"
  else
    Except.ok tok.serviceName

/-- `ValidateAPIKey`: look the key up in the key-to-service map. -/
def validateAPIKey (cfg : AuthConfig) (key : String) : Except String String :=
  match loadAssoc cfg.apiKeys key with
  | some serviceName => Except.ok serviceName
  | Option.none => Except.error "invalid API key"

/-- An `authorization` metadata value: either a well-formed `Bearer <token>`
header carrying a parsed token, or a value without the `Bearer ` prefix. -/
inductive AuthHeaderVal where
  | bearer (tok : Token)
  | malformed (raw : String)
deriving DecidableEq, Repr

/-- Incoming gRPC metadata, restricted to the two headers the validator
reads. -/
structure Metadata where
  authorization : List AuthHeaderVal
  xApiKey : List String
deriving DecidableEq, Repr

/-- `authenticate` composed with `authenticateJWT` / `authenticateAPIKey`
from the auth source: missing metadata, then dispatch on the configured
method; JWT mode reads the first `authorization` value, requires the
`Bearer ` prefix and validates the token; API-key mode reads the first
`x-api-key` value and looks it up. -/
def authenticate (cfg : AuthConfig) (now : Nat) (md : Option Metadata) :
    Except String String :=
  match md with
  | Option.none => Except.error "missing metadata"
  | some m =>
    match cfg.authMethod with
    | AuthMethod.jwt =>
      match m.authorization with
      | [] => Except.error "missing authorization header"
      | v :: _ =>
        match v with
        | AuthHeaderVal.malformed _ => Except.error "invalid authorization format"
        | AuthHeaderVal.bearer tok => validateJWT cfg now tok
    | AuthMethod.apiKey =>
      match m.xApiKey with
      | [] => Except.error "missing API key"
      | k :: _ => validateAPIKey cfg k

/-- Outcome of an intercepted call over a server-state type: either the
handler ran (producing the post state and a reply), or the interceptor
rejected the call with an `unauthenticated` status and the state is the one
it was given. -/
inductive CallResult (σ : Type) where
  | ok (st : σ) (resp : Status)
  | unauthenticated (st : σ) (reason : String)
deriving DecidableEq, Repr

/-- `strings.HasSuffix(info.FullMethod, "/Ping")`, computed on the
underlying character lists. -/
def hasPingSuffix (fullMethod : String) : Bool :=
  List.isSuffixOf ("/Ping" : String).data fullMethod.data

/-- `UnaryInterceptor`: skip validation when auth is disabled or the method
ends in `/Ping` (the handler then runs on the original context, with no
service name bound); otherwise authenticate, rejecting failures with an
`unauthenticated` status, and on success run the handler with the resolved
service name bound into the context. The handler is any function from the
bound identity and server state to a new state and reply. -/
def unaryInterceptor {σ : Type} (cfg : AuthConfig) (now : Nat)
    (fullMethod : String) (md : Option Metadata) (st : σ)
    (handler : Option String → σ → σ × Status) : CallResult σ :=
  if cfg.enableAuth = false then
    CallResult.ok (handler Option.none st).1 (handler Option.none st).2
  else if hasPingSuffix fullMethod then
    CallResult.ok (handler Option.none st).1 (handler Option.none st).2
  else
    match authenticate cfg now md with
    | Except.error e =>
      CallResult.unauthenticated st ("authentication failed: " ++ e)
    | Except.ok serviceName =>
      CallResult.ok (handler (some serviceName) st).1
        (handler (some serviceName) st).2

/-- `StreamInterceptor`: identical policy but with no Ping bypass (the only
streaming method is Receive). -/
def streamInterceptor {σ : Type} (cfg : AuthConfig) (now : Nat)
    (md : Option Metadata) (st : σ)
    (handler : Option String → σ → σ × Status) : CallResult σ :=
  if cfg.enableAuth = false then
    CallResult.ok (handler Option.none st).1 (handler Option.none st).2
  else
    match authenticate cfg now md with
    | Except.error e =>
      CallResult.unauthenticated st ("authentication failed: " ++ e)
    | Except.ok serviceName =>
      CallResult.ok (handler (some serviceName) st).1
        (handler (some serviceName) st).2

/-- `GetServiceNameFromContext`: the bound service name, or the empty string
when the context holds none. -/
def getServiceNameFromContext (ctxVal : Option String) : String :=
  match ctxVal with
  | some serviceName => serviceName
  | Option.none => ""

/-! ### Spool value serialization

`storeMessage` persists `proto.Marshal(_msg)` and the readers recover the
message with `proto.Unmarshal`. The wire coding below is an executable,
injective flat encoding of every `Message` field with an exact decoder,
standing in for the proto3 coding of `base.proto` (which round-trips all
fields of this message type). -/

/-- Numeric tag of a `Type` value (the proto enum numbers). -/
def typeToNat : MsgType → Nat
  | .MP4 => 0
  | .MP3 => 1
  | .JPG => 2
  | .PNG => 3
  | .JSON => 4
  | .XML => 5
  | .HTML => 6
  | .TEXT => 7
  | .OTHER => 8

/-- Decode a `Type` tag (out-of-range tags fall back to OTHER). -/
def natToType : Nat → MsgType
  | 0 => .MP4
  | 1 => .MP3
  | 2 => .JPG
  | 3 => .PNG
  | 4 => .JSON
  | 5 => .XML
  | 6 => .HTML
  | 7 => .TEXT
  | _ => .OTHER

/-- Numeric tag of an `Event` value (the proto enum numbers). -/
def eventToNat : Event → Nat
  | .STREAM => 0
  | .MESSAGE => 1
  | .ERROR => 2

/-- Decode an `Event` tag. -/
def natToEvent : Nat → Event
  | 0 => .STREAM
  | 1 => .MESSAGE
  | _ => .ERROR

/-- Encode a boolean as a wire scalar. -/
def boolToNat (b : Bool) : Nat := if b then 1 else 0

/-- Length-prefixed string field. -/
def encodeString (s : String) : List Nat :=
  s.length :: s.data.map Char.toNat

/-- Decode a length-prefixed string field, returning the remainder. -/
def decodeString (l : List Nat) : Option (String × List Nat) :=
  match l with
  | [] => Option.none
  | n :: rest =>
    if n ≤ rest.length then
      some (String.mk ((rest.take n).map Char.ofNat), rest.drop n)
    else Option.none

/-- Serialize a `Message` to its spool value: length-prefixed data bytes,
length-prefixed from and to, then the scalar fields. -/
def marshalMessage (m : Message) : List Nat :=
  (m.data.length :: m.data) ++ encodeString m.from_ ++ encodeString m.to_ ++
    [typeToNat m.type, m.seq, eventToNat m.event, boolToNat m.done,
      boolToNat m.queue]

/-- Deserialize a spool value back to a `Message`. -/
def unmarshalMessage (l : List Nat) : Option Message :=
  match l with
  | [] => Option.none
  | dlen :: rest =>
    if dlen ≤ rest.length then
      match decodeString (rest.drop dlen) with
      | some (f, rest2) =>
        match decodeString rest2 with
        | some (t, rest3) =>
          match rest3 with
          | [ty, sq, ev, dn, qu] =>
            some { data := rest.take dlen, type := natToType ty, seq := sq,
                   from_ := f, to_ := t, event := natToEvent ev,
                   done := dn != 0, queue := qu != 0 }
          | _ => Option.none
        | Option.none => Option.none
      | Option.none => Option.none
    else Option.none

/-- The string length is the length of the underlying character list. -/
theorem string_length_eq_data_length (s : String) :
    s.length = s.data.length := by
  cases s
  rfl

/-! ### Concrete instances used in the theorems below -/

/-- An auth configuration as `NewAuthManager` normalizes it from zero values:
secret configured, `TokenExpiry` left 0 so the 24-hour default applies. -/
def expiryConfig : AuthConfig :=
  newAuthManager
    { jwtSecret := "topsecret", apiKeys := [], tokenExpiry := 0,
      enableAuth := true, authMethod := AuthMethod.jwt } "generated"

/-- A token the broker generates at time 0 for service `svc-a` under
`expiryConfig`. -/
def expiryToken : Token := generateJWT expiryConfig 0 "svc-a"

/-- A configuration with authentication disabled. -/
def authDisabledConfig : AuthConfig :=
  { jwtSecret := "s", apiKeys := [], tokenExpiry := 3600,
    enableAuth := false, authMethod := AuthMethod.jwt }

/-- A handler that replies with the service name it reads from the request
context, as `GetServiceNameFromContext` exposes it. -/
def observingHandler : Option String → Unit → Unit × Status :=
  fun ctxVal st => (st, ⟨getServiceNameFromContext ctxVal, true, Err.NONE⟩)

/-- An auth configuration with JWT auth enabled. -/
def jwtAuthConfig : AuthConfig :=
  { jwtSecret := "secret", apiKeys := [("goodkey", "svc")],
    tokenExpiry := 3600, enableAuth := true, authMethod := AuthMethod.jwt }

/-- The same credential store in opaque-key mode. -/
def apiKeyAuthConfig : AuthConfig :=
  { jwtAuthConfig with authMethod := AuthMethod.apiKey }

/-- A token whose signature was produced with a different secret (as after
tampering with the claims of a correctly signed token). -/
def badSigToken : Token :=
  { generateJWT jwtAuthConfig 0 "svc" with sigKey := "othersecret" }

/-- A token using the `none` algorithm. -/
def noneAlgToken : Token :=
  { generateJWT jwtAuthConfig 0 "svc" with alg := Alg.algNone }

/-- A message with `done = true` (and `queue = true`). -/
def doneMsg : Message :=
  { data := [104, 105], type := MsgType.TEXT, seq := 5, from_ := "A",
    to_ := "B", event := Event.STREAM, done := true, queue := true }

/-- A valid queueable message addressed to `B`, with sender-provided `seq`
and `event` values that spooling must overwrite. -/
def queueMsg : Message :=
  { data := [104], type := MsgType.TEXT, seq := 99, from_ := "A",
    to_ := "B", event := Event.ERROR, done := true, queue := true }

/-- A message with empty data. -/
def emptyDataMsg : Message :=
  { data := [], type := MsgType.TEXT, seq := 0, from_ := "A",
    to_ := "B", event := Event.STREAM, done := false, queue := false }

/-- Decoding a length-prefixed string after its encoding recovers the string
and the remainder. -/
theorem decodeString_encodeString (s : String) (tail : List Nat) :
    decodeString (encodeString s ++ tail) = some (s, tail) := by
  have hlen : (s.data.map Char.toNat).length = s.length := by
    rw [List.length_map, string_length_eq_data_length]
  have htake : ((s.data.map Char.toNat) ++ tail).take s.length
      = s.data.map Char.toNat := by
    rw [← hlen]
    exact List.take_left _ _
  have hdrop : ((s.data.map Char.toNat) ++ tail).drop s.length = tail := by
    rw [← hlen]
    exact List.drop_left _ _
  have hle : s.length ≤ ((s.data.map Char.toNat) ++ tail).length := by
    rw [List.length_append, ← hlen]
    exact Nat.le_add_right _ _
  simp only [encodeString, decodeString, List.cons_append, if_pos hle, htake,
    hdrop, List.map_map]
  have hmap : s.data.map (Char.ofNat ∘ Char.toNat) = s.data := by
    have : Char.ofNat ∘ Char.toNat = id := by
      funext c
      simp [Char.ofNat_toNat]
    rw [this, List.map_id]
  rw [hmap]

/-- Round-trip of the enum and boolean scalars. -/
theorem natToType_typeToNat (t : MsgType) : natToType (typeToNat t) = t := by
  cases t <;> rfl

theorem natToEvent_eventToNat (e : Event) : natToEvent (eventToNat e) = e := by
  cases e <;> rfl

theorem boolToNat_ne_zero (b : Bool) : (boolToNat b != 0) = b := by
  cases b <;> rfl

/-- The spool coding is exact: deserializing a serialized message recovers
every field. -/
theorem unmarshalMessage_marshalMessage (m : Message) :
    unmarshalMessage (marshalMessage m) = some m := by
  have htake : (m.data ++ (encodeString m.from_ ++ (encodeString m.to_ ++
      [typeToNat m.type, m.seq, eventToNat m.event, boolToNat m.done,
        boolToNat m.queue]))).take m.data.length = m.data :=
    List.take_left _ _
  have hdrop : (m.data ++ (encodeString m.from_ ++ (encodeString m.to_ ++
      [typeToNat m.type, m.seq, eventToNat m.event, boolToNat m.done,
        boolToNat m.queue]))).drop m.data.length
      = encodeString m.from_ ++ (encodeString m.to_ ++
        [typeToNat m.type, m.seq, eventToNat m.event, boolToNat m.done,
          boolToNat m.queue]) :=
    List.drop_left _ _
  have hle : m.data.length ≤ (m.data ++ (encodeString m.from_ ++
      (encodeString m.to_ ++ [typeToNat m.type, m.seq, eventToNat m.event,
        boolToNat m.done, boolToNat m.queue]))).length := by
    rw [List.length_append]
    exact Nat.le_add_right _ _
  simp only [marshalMessage, unmarshalMessage, List.cons_append,
    List.append_assoc, if_pos hle, htake, hdrop]
  simp only [decodeString_encodeString, natToType_typeToNat,
    natToEvent_eventToNat, boolToNat_ne_zero]

/-! ### Registry invariant -/

/-- Because `Receive` stores a stream only when an entry for the service
already exists, and the registry of a fresh server is empty, no registry
transition can ever create a first entry: every reachable registry is empty.
-/
theorem regReachable_eq_nil {r : Registry} (h : RegReachable r) : r = [] := by
  induction h with
  | init => rfl
  | step _ hs ih =>
    subst ih
    cases hs with
    | register from_ stream => rfl
    | drainPass serviceName scanOk =>
      cases scanOk <;> rfl
    | teardown from_ => rfl

/-- C1: the claim asserts that `Receive` installs `(B, stream)` into the
Session Registry on entry, so that a valid `Send` to `B` then returns
`{success=true, error=NONE, message="Message sent"}` and delivers on the
registered stream. The code stores the stream only when an entry for `B`
already exists (server.go lines 115-117), so from the empty initial map no
entry is ever created: after any reachable history, a fresh `Receive` leaves
the registry without an entry for the caller, and `Send` never produces the
`Message sent` status nor a live delivery. -/
theorem send_never_reports_message_sent
    (r : Registry) (h : RegReachable r) (from_ : String) (stream : Nat)
    (db : Spool) (now : Nat) (freshId : String) (lockAcquired : Bool)
    (streamSendErr putErr : Option String) (msg : Message) :
    loadAssoc (receiveRegister r from_ stream) from_ = (Option.none : Option Nat)
    ∧ (send (receiveRegister r from_ stream) db now freshId lockAcquired
        streamSendErr putErr msg).status ≠ ⟨"Message sent", true, Err.NONE⟩
    ∧ (send (receiveRegister r from_ stream) db now freshId lockAcquired
        streamSendErr putErr msg).delivered = [] := by
  have hr := regReachable_eq_nil h
  subst hr
  have hreg : receiveRegister [] from_ stream = [] := rfl
  have hl : loadAssoc ([] : Registry) msg.to_ = (Option.none : Option Nat) :=
    rfl
  rw [hreg]
  refine ⟨rfl, ?_, ?_⟩
  · unfold send
    simp only [hl]
    split
    · simp
    · split
      · simp
      · split
        · split
          · simp
          · simp
        · simp
  · unfold send
    simp only [hl]
    split
    · rfl
    · split
      · rfl
      · split
        · split
          · rfl
          · rfl
        · rfl

/-- Witness for `send_never_reports_message_sent` at a concrete input:
service B issues a fresh Receive against an idle broker, then A sends a
valid non-queued message to B. -/
theorem send_never_reports_message_sent_witness :
    loadAssoc (receiveRegister [] "B" 7) "B" = (Option.none : Option Nat)
    ∧ (send (receiveRegister [] "B" 7) [] 3 "0123456789abcdef" true
        Option.none Option.none
        { data := [104, 105], type := MsgType.TEXT, seq := 0, from_ := "A",
          to_ := "B", event := Event.STREAM, done := false,
          queue := false }).status ≠ ⟨"Message sent", true, Err.NONE⟩
    ∧ (send (receiveRegister [] "B" 7) [] 3 "0123456789abcdef" true
        Option.none Option.none
        { data := [104, 105], type := MsgType.TEXT, seq := 0, from_ := "A",
          to_ := "B", event := Event.STREAM, done := false,
          queue := false }).delivered = [] :=
  send_never_reports_message_sent [] RegReachable.init "B" 7 [] 3
    "0123456789abcdef" true Option.none Option.none
    { data := [104, 105], type := MsgType.TEXT, seq := 0, from_ := "A",
      to_ := "B", event := Event.STREAM, done := false, queue := false }

/-- C3: the claim asserts that while a Receive for S is parked the registry
continuously maps S to its stream between drain ticks, the entry being
removed only at teardown. In the code a fresh Receive never installs the
entry (the store is guarded by prior existence), and `GetMessages` deletes
the entry at the end of every successful drain pass via its deferred
`clients.Delete`; so between ticks the registry holds no entry for S. -/
theorem registry_entry_absent_between_drain_ticks :
    receiveRegister [] "B" 7 = ([] : Registry)
    ∧ loadAssoc (receiveRegister [] "B" 7) "B" = (Option.none : Option Nat)
    ∧ getMessagesRegistryAfter [("B", 7)] "B" true = ([] : Registry)
    ∧ loadAssoc (getMessagesRegistryAfter [("B", 7)] "B" true) "B"
        = (Option.none : Option Nat) := by
  refine ⟨rfl, rfl, ?_, ?_⟩ <;> decide

/-- C2: the claim (and the repository's own auth documentation) says signed
tokens have no enforced expiry, so validation never fails solely because of
token age. In the code `GenerateJWT` stamps `ExpiresAt = now + TokenExpiry`
(24 hours by default) and the jwt/v5 parser used by `ValidateJWT` enforces
the `exp` claim: the very same token that validates shortly after issuance
is rejected as expired once the default 24 hours (86400 s) have elapsed,
with algorithm and signature both valid. -/
theorem validateJWT_rejects_aged_token :
    expiryConfig.tokenExpiry = 86400
    ∧ validateJWT expiryConfig 100 expiryToken = Except.ok "svc-a"
    ∧ validateJWT expiryConfig 86401 expiryToken
        = Except.error "token is expired" := by
  refine ⟨rfl, ?_, ?_⟩ <;> rfl

/-- C4 counterexample: with authentication disabled the interceptor invokes
the handler on the original context, binding nothing; a handler reading the
identity via `GetServiceNameFromContext` observes the empty string, not the
synthetic identity `anonymous` the claim promises. -/
theorem auth_disabled_observes_empty_not_anonymous :
    unaryInterceptor authDisabledConfig 0 "/base.proto.Broker/Send"
        Option.none () observingHandler
      = CallResult.ok () ⟨"", true, Err.NONE⟩
    ∧ ("" : String) ≠ "anonymous" := by
  refine ⟨rfl, ?_⟩
  decide

/-- C4 amended: when authentication is disabled globally, every call runs
its handler with no service name bound to the request context, and a handler
reading the authenticated identity from the context observes the empty
string. -/
theorem auth_disabled_runs_handler_without_identity {σ : Type}
    (cfg : AuthConfig) (now : Nat) (fullMethod : String)
    (md : Option Metadata) (st : σ)
    (handler : Option String → σ → σ × Status)
    (h : cfg.enableAuth = false) :
    unaryInterceptor cfg now fullMethod md st handler
      = CallResult.ok (handler Option.none st).1 (handler Option.none st).2
    ∧ streamInterceptor cfg now md st handler
      = CallResult.ok (handler Option.none st).1 (handler Option.none st).2
    ∧ getServiceNameFromContext Option.none = "" := by
  refine ⟨?_, ?_, rfl⟩
  · unfold unaryInterceptor
    rw [if_pos h]
  · unfold streamInterceptor
    rw [if_pos h]

/-- Witness for `auth_disabled_runs_handler_without_identity` on a concrete
stateful handler. -/
theorem auth_disabled_runs_handler_without_identity_witness :
    unaryInterceptor authDisabledConfig 0 "/base.proto.Broker/Cleanup"
        Option.none (0 : Nat) (fun _ n => (n + 1, ⟨"ok", true, Err.NONE⟩))
      = CallResult.ok 1 ⟨"ok", true, Err.NONE⟩
    ∧ streamInterceptor authDisabledConfig 0 Option.none (0 : Nat)
        (fun _ n => (n + 1, ⟨"ok", true, Err.NONE⟩))
      = CallResult.ok 1 ⟨"ok", true, Err.NONE⟩
    ∧ getServiceNameFromContext Option.none = "" :=
  auth_disabled_runs_handler_without_identity authDisabledConfig 0
    "/base.proto.Broker/Cleanup" Option.none 0
    (fun _ n => (n + 1, ⟨"ok", true, Err.NONE⟩)) rfl

/-- C5 counterexample: the spool value the broker writes is built without
copying `done` (`_msg` in `storeMessage` sets only Data, Type, From, To,
Event, Seq), so serializing a message with `done = true` and deserializing
the spool value yields `done = false`: `done` is not preserved. -/
theorem spool_roundtrip_drops_done :
    (unmarshalMessage (marshalMessage (storedMessage 9 doneMsg))).map
        Message.done = some false
    ∧ doneMsg.done = true := by
  refine ⟨?_, rfl⟩
  rw [unmarshalMessage_marshalMessage]
  rfl

/-- C5 amended: serializing a message to its spool value (as the broker
spools it) and deserializing is exact on the stored record, and the stored
record preserves `from`, `to`, `data` and `type` of the original while `seq`
and `event` are broker-assigned; `done` (and `queue`) are not preserved but
reset to false. -/
theorem spool_roundtrip_preserves_all_but_done_queue (now : Nat)
    (m : Message) :
    unmarshalMessage (marshalMessage (storedMessage now m))
      = some (storedMessage now m)
    ∧ (storedMessage now m).from_ = m.from_
    ∧ (storedMessage now m).to_ = m.to_
    ∧ (storedMessage now m).data = m.data
    ∧ (storedMessage now m).type = m.type
    ∧ (storedMessage now m).seq = now
    ∧ (storedMessage now m).event = Event.MESSAGE
    ∧ (storedMessage now m).done = false
    ∧ (storedMessage now m).queue = false :=
  ⟨unmarshalMessage_marshalMessage _, rfl, rfl, rfl, rfl, rfl, rfl, rfl, rfl⟩

/-- C6 counterexample: the key `storeMessage` writes for service `B` and a
concrete fresh 16-character id uses the underscore separator, so it is not
of the form `<service>|<16-char-id>` for any id. -/
theorem spool_key_separator_not_pipe :
    ¬ ∃ id : String, id.length = 16
      ∧ storeKey "B" "0123456789abcdef" = "B" ++ "|" ++ id := by
  rintro ⟨id, -, heq⟩
  have hB : ("B" : String).data = ['B'] := rfl
  have hU : ("_" : String).data = ['_'] := rfl
  have hP : ("|" : String).data = ['|'] := rfl
  have h2 := congrArg String.data heq
  simp only [storeKey, String.data_append, hB, hU, hP, List.cons_append,
    List.nil_append, List.singleton_append] at h2
  injection h2 with h3 h4
  injection h4 with h5 h6
  exact absurd h5 (by decide)

/-- C6 amended: every key the broker writes to the durable spool has the
form `<service>_<id>`: the recipient service name, the underscore separator,
then the fresh 16-character unique id; all other keys in the spool after a
`Send` were already present. -/
theorem spool_keys_use_underscore_separator
    (clients : Registry) (db : Spool) (now : Nat) (freshId : String)
    (lockAcquired : Bool) (streamSendErr putErr : Option String)
    (msg : Message) (hid : freshId.length = 16) (kv : String × Message)
    (hmem : kv ∈ (send clients db now freshId lockAcquired streamSendErr
      putErr msg).db) :
    kv ∈ db ∨ ∃ id : String, id.length = 16
      ∧ kv.1 = msg.to_ ++ "_" ++ id := by
  unfold send at hmem
  split at hmem
  · exact Or.inl hmem
  · split at hmem
    · exact Or.inl hmem
    · split at hmem
      · split at hmem
        · exact Or.inl hmem
        · exact Or.inl hmem
      · split at hmem
        · split at hmem
          · rcases List.mem_append.mp hmem with h | h
            · exact Or.inl h
            · rcases List.mem_singleton.mp h with rfl
              exact Or.inr ⟨freshId, hid, rfl⟩
          · exact Or.inl hmem
        · exact Or.inl hmem

/-- Witness for `spool_keys_use_underscore_separator`: queueing a message to
`B` with a concrete 16-character id. -/
theorem spool_keys_use_underscore_separator_witness :
    ("0123456789abcdef" : String).length = 16
    ∧ (("B_0123456789abcdef", storedMessage 3 queueMsg)
        ∈ ([] : Spool)
      ∨ ∃ id : String, id.length = 16
        ∧ ("B_0123456789abcdef", storedMessage 3 queueMsg).1
            = queueMsg.to_ ++ "_" ++ id) := by
  refine ⟨rfl, ?_⟩
  exact spool_keys_use_underscore_separator [] [] 3 "0123456789abcdef" true
    Option.none Option.none queueMsg rfl _ (List.mem_singleton.mpr rfl)

/-- C7: with authentication enabled, any call whose method does not end in
`/Ping` and whose metadata fails authentication (missing credentials, wrong
signature, non-HMAC or `none` algorithm, malformed Bearer header, unknown
API key) is rejected by both interceptors with an unauthenticated status;
the server state is returned untouched and the handler — universally
quantified, so in particular any state-mutating handler body — never runs.
The closing conjuncts check that each enumerated kind of invalid credential
indeed fails authentication. -/
theorem invalid_credentials_reject_without_handler {σ : Type}
    (cfg : AuthConfig) (now : Nat) (fullMethod : String)
    (md : Option Metadata) (st : σ)
    (handler : Option String → σ → σ × Status) (e : String)
    (henable : cfg.enableAuth = true)
    (hping : hasPingSuffix fullMethod = false)
    (hauth : authenticate cfg now md = Except.error e) :
    unaryInterceptor cfg now fullMethod md st handler
      = CallResult.unauthenticated st ("authentication failed: " ++ e)
    ∧ streamInterceptor cfg now md st handler
      = CallResult.unauthenticated st ("authentication failed: " ++ e)
    ∧ (authenticate jwtAuthConfig 0 Option.none).isOk = false
    ∧ (authenticate jwtAuthConfig 0
        (some ⟨[AuthHeaderVal.bearer badSigToken], []⟩)).isOk = false
    ∧ (authenticate jwtAuthConfig 0
        (some ⟨[AuthHeaderVal.bearer noneAlgToken], []⟩)).isOk = false
    ∧ (authenticate jwtAuthConfig 0
        (some ⟨[AuthHeaderVal.malformed "Basic abc"], []⟩)).isOk = false
    ∧ (authenticate apiKeyAuthConfig 0
        (some ⟨[], ["unknownkey"]⟩)).isOk = false := by
  refine ⟨?_, ?_, rfl, rfl, rfl, rfl, rfl⟩
  · unfold unaryInterceptor
    rw [if_neg (by simp [henable]), if_neg (by simp [hping]), hauth]
  · unfold streamInterceptor
    rw [if_neg (by simp [henable]), hauth]

/-- Witness for `invalid_credentials_reject_without_handler`: a Send call
with no metadata at all against a mutating handler over a spool state. -/
theorem invalid_credentials_reject_without_handler_witness :
    unaryInterceptor jwtAuthConfig 0 "/base.proto.Broker/Send" Option.none
        ([] : Spool)
        (fun _ db => (db ++ [("x", emptyDataMsg)], ⟨"ran", true, Err.NONE⟩))
      = CallResult.unauthenticated ([] : Spool)
          ("authentication failed: " ++ "missing metadata")
    ∧ streamInterceptor jwtAuthConfig 0 Option.none ([] : Spool)
        (fun _ db => (db ++ [("x", emptyDataMsg)], ⟨"ran", true, Err.NONE⟩))
      = CallResult.unauthenticated ([] : Spool)
          ("authentication failed: " ++ "missing metadata")
    ∧ (authenticate jwtAuthConfig 0 Option.none).isOk = false
    ∧ (authenticate jwtAuthConfig 0
        (some ⟨[AuthHeaderVal.bearer badSigToken], []⟩)).isOk = false
    ∧ (authenticate jwtAuthConfig 0
        (some ⟨[AuthHeaderVal.bearer noneAlgToken], []⟩)).isOk = false
    ∧ (authenticate jwtAuthConfig 0
        (some ⟨[AuthHeaderVal.malformed "Basic abc"], []⟩)).isOk = false
    ∧ (authenticate apiKeyAuthConfig 0
        (some ⟨[], ["unknownkey"]⟩)).isOk = false :=
  invalid_credentials_reject_without_handler jwtAuthConfig 0
    "/base.proto.Broker/Send" Option.none ([] : Spool)
    (fun _ db => (db ++ [("x", emptyDataMsg)], ⟨"ran", true, Err.NONE⟩))
    "missing metadata" rfl (by decide) rfl

/-- C8: a valid Send (non-empty data, from, to) that acquires the mutex,
finds no live session for the recipient, carries `queue = true`, and whose
spool write succeeds, replies `{success=true, error=NONE,
message="Message queued"}` and appends exactly one spool entry under key
`<to>_<freshId>` whose stored message carries broker-assigned
`seq = now` and `event = MESSAGE`, overwriting the sender-provided values. -/
theorem send_queues_and_stamps_message
    (clients : Registry) (db : Spool) (now : Nat) (freshId : String)
    (streamSendErr : Option String) (msg : Message)
    (hdata : msg.data ≠ []) (hfrom : msg.from_ ≠ "") (hto : msg.to_ ≠ "")
    (hlive : loadAssoc clients msg.to_ = (Option.none : Option Nat))
    (hqueue : msg.queue = true) :
    send clients db now freshId true streamSendErr Option.none msg
      = ⟨⟨"Message queued", true, Err.NONE⟩,
          db ++ [(msg.to_ ++ "_" ++ freshId,
            { data := msg.data, type := msg.type, seq := now,
              from_ := msg.from_, to_ := msg.to_, event := Event.MESSAGE,
              done := false, queue := false })], []⟩
    ∧ (send clients db now freshId true streamSendErr Option.none
        msg).db.length = db.length + 1 := by
  have hvalid : ¬(msg.data = [] ∨ msg.from_ = "" ∨ msg.to_ = "") := by
    push_neg
    exact ⟨hdata, hfrom, hto⟩
  have h1 : send clients db now freshId true streamSendErr Option.none msg
      = ⟨⟨"Message queued", true, Err.NONE⟩,
          db ++ [(msg.to_ ++ "_" ++ freshId,
            { data := msg.data, type := msg.type, seq := now,
              from_ := msg.from_, to_ := msg.to_, event := Event.MESSAGE,
              done := false, queue := false })], []⟩ := by
    unfold send
    rw [if_neg hvalid]
    simp only [Bool.true_eq_false, if_false, hlive, hqueue, if_true,
      storeKey, storedMessage]
  refine ⟨h1, ?_⟩
  rw [h1]
  simp

/-- Witness for `send_queues_and_stamps_message`: queueing a message whose
sender supplied `seq = 99`, `event = ERROR`, `done = true`; the stored entry
carries `seq = 7` and `event = MESSAGE`. -/
theorem send_queues_and_stamps_message_witness :
    send [] [] 7 "abcdabcdabcdabcd" true Option.none Option.none queueMsg
      = ⟨⟨"Message queued", true, Err.NONE⟩,
          [("B" ++ "_" ++ "abcdabcdabcdabcd",
            { data := [104], type := MsgType.TEXT, seq := 7, from_ := "A",
              to_ := "B", event := Event.MESSAGE, done := false,
              queue := false })], []⟩
    ∧ (send [] [] 7 "abcdabcdabcdabcd" true Option.none Option.none
        queueMsg).db.length = 0 + 1 :=
  send_queues_and_stamps_message [] [] 7 "abcdabcdabcdabcd" Option.none
    queueMsg (by decide) (by decide) (by decide) rfl rfl

/-- C9: a Send whose message has empty data, or empty from, or empty to,
returns `{success=false, error=INVALID_REQUEST}`, leaves the spool unchanged
and delivers nothing to any stream. -/
theorem send_rejects_empty_fields
    (clients : Registry) (db : Spool) (now : Nat) (freshId : String)
    (lockAcquired : Bool) (streamSendErr putErr : Option String)
    (msg : Message)
    (h : msg.data = [] ∨ msg.from_ = "" ∨ msg.to_ = "") :
    send clients db now freshId lockAcquired streamSendErr putErr msg
      = ⟨⟨"Invalid message", false, Err.INVALID_REQUEST⟩, db, []⟩ := by
  unfold send
  rw [if_pos h]

/-- Witness for `send_rejects_empty_fields`: a message with empty data. -/
theorem send_rejects_empty_fields_witness :
    send [] [("B_k", doneMsg)] 0 "0123456789abcdef" true Option.none
        Option.none emptyDataMsg
      = ⟨⟨"Invalid message", false, Err.INVALID_REQUEST⟩,
          [("B_k", doneMsg)], []⟩ :=
  send_rejects_empty_fields [] [("B_k", doneMsg)] 0 "0123456789abcdef" true
    Option.none Option.none emptyDataMsg (Or.inl rfl)

/-- C10: a Cleanup whose identity has an empty `from`, when the mutex is
acquired, replies `{success=false, error=INVALID_REQUEST,
message="missing service name"}` and deletes nothing; and because the
try-lock precedes the name check, a contended server replies
`SERVER_ERROR "Server busy"` for any name, the empty one included. -/
theorem cleanup_checks_lock_before_name (db : Spool) (from_ : String) :
    cleanup db true ""
      = (⟨"missing service name", false, Err.INVALID_REQUEST⟩, db)
    ∧ cleanup db false from_
      = (⟨"Server busy", false, Err.SERVER_ERROR⟩, db) :=
  ⟨rfl, rfl⟩

end Broker
